import Mathlib

/-!
A verification development for the QuestBot gamification engine
(`src/bot.py`).  The Python source is shallowly embedded: each database
table becomes a list of rows, each Discord platform read becomes an
explicit argument, and each handler becomes a pure state-transition
function.  Python integers are `Int` (they are unbounded), Python
strings are `String` with list-of-characters operations mirroring
Python's `str.startswith`, `str.lower` and the `in` substring test.
Reads of live Discord state (`bot.get_guild` / `guild.get_member` /
`member.roles`) are represented by the `LiveRead` type, whose failure
constructors model an unresolvable guild, an unresolvable member, and
an exception raised during the read (the `except` branches of the
source).
-/

namespace QuestBot

/-- Python `s.startswith(p)`. -/
def pyStartsWith (s p : String) : Bool :=
  p.data.isPrefixOf s.data

/-- Python `s.lower()` (character-wise lowering, as used on role names). -/
def pyLower (s : String) : String :=
  ⟨s.data.map Char.toLower⟩

/-- Python `p in s` (substring containment). -/
def pyContains (s p : String) : Bool :=
  s.data.tails.any (fun t => p.data.isPrefixOf t)

/-- A Discord role: snowflake identifier and display name. -/
structure Role where
  id : Nat
  name : String
deriving DecidableEq, Repr

/-- `LEVEL_THRESHOLDS` from `bot.py` lines 17-28: XP needed for each level. -/
def LEVEL_THRESHOLDS : Nat → Int
  | 1 => 0
  | 2 => 100
  | 3 => 500
  | 4 => 1200
  | 5 => 2200
  | 6 => 3500
  | 7 => 5100
  | 8 => 7000
  | 9 => 9200
  | 10 => 11700
  | _ => 0

/-- `QuestBot.calculate_level` (bot.py lines 254-259): iterate levels in
the order `10, 9, ..., 1` and return the first whose threshold is `≤ xp`;
return `1` if the loop falls through.  The Python `for` loop with an
early `return` is unrolled into a chain of conditionals. -/
def calculate_level (xp : Int) : Nat :=
  if LEVEL_THRESHOLDS 10 ≤ xp then 10
  else if LEVEL_THRESHOLDS 9 ≤ xp then 9
  else if LEVEL_THRESHOLDS 8 ≤ xp then 8
  else if LEVEL_THRESHOLDS 7 ≤ xp then 7
  else if LEVEL_THRESHOLDS 6 ≤ xp then 6
  else if LEVEL_THRESHOLDS 5 ≤ xp then 5
  else if LEVEL_THRESHOLDS 4 ≤ xp then 4
  else if LEVEL_THRESHOLDS 3 ≤ xp then 3
  else if LEVEL_THRESHOLDS 2 ≤ xp then 2
  else if LEVEL_THRESHOLDS 1 ≤ xp then 1
  else 1

/-- `calculate_level` with the threshold table inlined as numerals
(useful for case splitting). -/
theorem calculate_level_eq (xp : Int) :
    calculate_level xp =
      if (11700:Int) ≤ xp then 10
      else if (9200:Int) ≤ xp then 9
      else if (7000:Int) ≤ xp then 8
      else if (5100:Int) ≤ xp then 7
      else if (3500:Int) ≤ xp then 6
      else if (2200:Int) ≤ xp then 5
      else if (1200:Int) ≤ xp then 4
      else if (500:Int) ≤ xp then 3
      else if (100:Int) ≤ xp then 2
      else if (0:Int) ≤ xp then 1
      else 1 := rfl

example : calculate_level 0 = 1 := by decide
example : calculate_level 99 = 1 := by decide
example : calculate_level 100 = 2 := by decide
example : calculate_level 11700 = 10 := by decide
example : calculate_level 999999 = 10 := by decide
example : calculate_level (-5) = 1 := by decide

set_option maxHeartbeats 2000000 in
/-- C5: `calculate_level` always lands in `1..10`; for non-negative `xp`
it returns a level whose threshold is met and no smaller than any other
level whose threshold is met (the highest qualifying level); for
negative `xp` no threshold qualifies (threshold of level 1 is 0) and the
result is the default level 1. -/
theorem calculate_level_spec (xp : Int) :
    (1 ≤ calculate_level xp ∧ calculate_level xp ≤ 10) ∧
    (0 ≤ xp →
      LEVEL_THRESHOLDS (calculate_level xp) ≤ xp ∧
      ∀ l, 1 ≤ l → l ≤ 10 → LEVEL_THRESHOLDS l ≤ xp → l ≤ calculate_level xp) ∧
    (xp < 0 → calculate_level xp = 1) := by
  refine ⟨?_, fun hxp => ⟨?_, fun l hl1 hl10 hle => ?_⟩, fun hneg => ?_⟩
  · rw [calculate_level_eq]
    split_ifs <;> omega
  · rw [calculate_level_eq]
    split_ifs with h10 h9 h8 h7 h6 h5 h4 h3 h2 h1 <;> assumption
  · rcases (by omega :
        l = 1 ∨ l = 2 ∨ l = 3 ∨ l = 4 ∨ l = 5 ∨ l = 6 ∨ l = 7 ∨ l = 8 ∨
        l = 9 ∨ l = 10) with
        rfl | rfl | rfl | rfl | rfl | rfl | rfl | rfl | rfl | rfl <;>
      · simp only [LEVEL_THRESHOLDS] at hle
        rw [calculate_level_eq]
        split_ifs <;> omega
  · rw [calculate_level_eq]
    have h0 : ¬ ((0:Int) ≤ xp) := by omega
    split_ifs <;> omega

/-- Witness for C5 at `xp = 600`: level 3 is returned, its threshold 500
is met, and every qualifying level is at most 3. -/
theorem calculate_level_spec_witness :
    (0:Int) ≤ 600 ∧
    LEVEL_THRESHOLDS (calculate_level 600) ≤ 600 ∧
    ∀ l, 1 ≤ l → l ≤ 10 → LEVEL_THRESHOLDS l ≤ 600 → l ≤ calculate_level 600 :=
  ⟨by decide, ((calculate_level_spec 600).2.1 (by decide)).1,
    ((calculate_level_spec 600).2.1 (by decide)).2⟩

/-! ## The persistent store

SQLite tables from `init_database` (bot.py lines 51-144), embedded as
lists of rows.  `users` has a UNIQUE(user_id, guild_id) key and is
accessed through `find?`; `streak_role_gains` is append-only;
`whitelisted_channels` has a UNIQUE(guild_id, channel_id) key;
`quests` is keyed by `message_id`. -/

/-- A row of the `users` table: base XP and cached level. -/
structure UserRow where
  userId : Nat
  guildId : Nat
  xp : Int
  level : Nat
deriving DecidableEq, Repr

/-- A row of the `quests` table.  `xpReward` is `none` for legacy rows
whose column is NULL. -/
structure QuestRow where
  messageId : Nat
  guildId : Nat
  channelId : Nat
  title : String
  content : String
  completedUsers : List Nat
  xpReward : Option Int
deriving DecidableEq, Repr

/-- A row of the append-only `streak_role_gains` table (the timestamp
column plays no role in any computation and is omitted). -/
structure StreakGain where
  userId : Nat
  guildId : Nat
  roleId : Nat
  roleName : String
  xpAwarded : Int
deriving DecidableEq, Repr

/-- A row of the `whitelisted_channels` table. -/
structure WhitelistRow where
  guildId : Nat
  channelId : Nat
  channelName : String
deriving DecidableEq, Repr

/-- The SQLite database state. -/
structure Db where
  users : List UserRow
  quests : List QuestRow
  streakGains : List StreakGain
  whitelist : List WhitelistRow
deriving DecidableEq, Repr

/-- A role-XP assignment value: `{"xp": ..., "type": "badge"|"streak"}`
(`QuestBot.assign_role_xp`, bot.py lines 431-435). -/
structure RoleAssign where
  xp : Int
  type : String
deriving DecidableEq, Repr

/-- One guild's `role_xp_assignments` dictionary, keyed by `str(role.id)`. -/
abbrev Assignments := List (String × RoleAssign)

/-- `SELECT xp, level FROM users WHERE user_id = ? AND guild_id = ?`. -/
def findUser (db : Db) (userId guildId : Nat) : Option UserRow :=
  db.users.find? (fun r => r.userId = userId ∧ r.guildId = guildId)

/-- `QuestBot.get_user_data` (bot.py lines 146-159): return the stored
(xp, level) pair, inserting a fresh `(0, 1)` row when none exists. -/
def get_user_data (db : Db) (userId guildId : Nat) : Db × Int × Nat :=
  match findUser db userId guildId with
  | some r => (db, r.xp, r.level)
  | none =>
      ({ db with users := db.users ++ [⟨userId, guildId, 0, 1⟩] }, 0, 1)

/-- `UPDATE users SET xp = ? WHERE user_id = ? AND guild_id = ?`. -/
def setUserXp (db : Db) (userId guildId : Nat) (xp : Int) : Db :=
  { db with
    users := db.users.map (fun r =>
      if r.userId = userId ∧ r.guildId = guildId then { r with xp := xp } else r) }

/-- `UPDATE users SET level = ? WHERE user_id = ? AND guild_id = ?`. -/
def setUserLevel (db : Db) (userId guildId : Nat) (level : Nat) : Db :=
  { db with
    users := db.users.map (fun r =>
      if r.userId = userId ∧ r.guildId = guildId then { r with level := level } else r) }

/-- `QuestBot.get_role_xp_and_type` (bot.py lines 422-429): look up the
assignment for `str(role.id)` in the guild's dictionary. -/
def get_role_xp_and_type (assigns : Assignments) (roleId : String) :
    Option (Int × String) :=
  (assigns.lookup roleId).map (fun d => (d.xp, d.type))

/-- `QuestBot.record_streak_role_gain` (bot.py lines 398-408):
append-only INSERT into `streak_role_gains`. -/
def record_streak_role_gain (db : Db) (userId guildId roleId : Nat)
    (roleName : String) (xpAwarded : Int) : Db :=
  { db with streakGains := db.streakGains ++ [⟨userId, guildId, roleId, roleName, xpAwarded⟩] }

/-- `QuestBot.get_accumulated_streak_xp` (bot.py lines 410-420):
`SELECT SUM(xp_awarded) FROM streak_role_gains WHERE user_id = ? AND
guild_id = ?` (NULL sums read as 0). -/
def get_accumulated_streak_xp (db : Db) (userId guildId : Nat) : Int :=
  ((db.streakGains.filter (fun g => g.userId = userId ∧ g.guildId = guildId)).map
    StreakGain.xpAwarded).sum

/-! ## Live Discord reads

`bot.get_guild` / `guild.get_member` / `member.roles` as seen by
`calculate_total_user_xp` and `is_user_opted_in`.  The three failure
constructors model an unresolvable guild, an unresolvable member, and
an exception raised while reading (the broad `except` branches of the
source). -/

inductive LiveRead where
  | noGuild
  | noMember
  | raised
  | ok (roles : List Role)
deriving DecidableEq, Repr

/-- The first loop of `calculate_total_user_xp` (bot.py lines 281-292):
XP from explicitly assigned roles, skipping `Level `-prefixed roles and
skipping assignments of type `"streak"`. -/
def customRoleXp (assigns : Assignments) : List Role → Int
  | [] => 0
  | role :: rest =>
      (if pyStartsWith role.name "Level " then 0
       else
         match get_role_xp_and_type assigns (toString role.id) with
         | some (xpAmount, roleType) => if roleType = "streak" then 0 else xpAmount
         | none => 0) + customRoleXp assigns rest

/-- The second loop of `calculate_total_user_xp` (bot.py lines 298-314):
5 XP for each held role without an explicit assignment whose lowered
name contains `"badge"`, again skipping `Level `-prefixed roles. -/
def autoRoleXp (assigns : Assignments) : List Role → Int
  | [] => 0
  | role :: rest =>
      (if pyStartsWith role.name "Level " then 0
       else
         match get_role_xp_and_type assigns (toString role.id) with
         | some _ => 0
         | none => if pyContains (pyLower role.name) "badge" then 5 else 0) +
        autoRoleXp assigns rest

/-- `QuestBot.calculate_total_user_xp` (bot.py lines 261-334).  On any
of the three failure modes the function falls back to the stored base
XP; otherwise it sums base XP, explicitly assigned non-streak role XP,
the 5-XP badge-name fallback, and accumulated streak XP.  The returned
`Db` accounts for the row `get_user_data` may insert. -/
def calculate_total_user_xp (db : Db) (assigns : Assignments) (live : LiveRead)
    (userId guildId : Nat) : Db × Int :=
  match live with
  | .noGuild =>
      let (db1, baseXp, _) := get_user_data db userId guildId
      (db1, baseXp)
  | .noMember =>
      let (db1, baseXp, _) := get_user_data db userId guildId
      (db1, baseXp)
  | .raised =>
      let (db1, baseXp, _) := get_user_data db userId guildId
      (db1, baseXp)
  | .ok roles =>
      let (db1, baseXp, _) := get_user_data db userId guildId
      let custom := customRoleXp assigns roles
      let accumulated := get_accumulated_streak_xp db1 userId guildId
      let auto := autoRoleXp assigns roles
      (db1, baseXp + custom + auto + accumulated)

/-- `QuestBot.update_user_xp` (bot.py lines 161-186): clamp the new base
XP at 0, store it, recompute the level from total XP, store the level if
it changed and request a level-role sync (the `asyncio.create_task`
call), returning total XP and new level. -/
def update_user_xp (db : Db) (assigns : Assignments) (live : LiveRead)
    (userId guildId : Nat) (xpChange : Int) :
    Db × Int × Nat × Option (Nat × Nat) :=
  let (db1, currentXp, oldLevel) := get_user_data db userId guildId
  let newBaseXp := max 0 (currentXp + xpChange)
  let db2 := setUserXp db1 userId guildId newBaseXp
  let (db3, totalXp) := calculate_total_user_xp db2 assigns live userId guildId
  let newLevel := calculate_level totalXp
  if oldLevel ≠ newLevel then
    (setUserLevel db3 userId guildId newLevel, totalXp, newLevel, some (oldLevel, newLevel))
  else
    (db3, totalXp, newLevel, none)

/-! ## Store lemmas -/

theorem findUser_some (db : Db) (userId guildId : Nat) (r : UserRow)
    (h : findUser db userId guildId = some r) :
    r.userId = userId ∧ r.guildId = guildId := by
  have := List.find?_some h
  simpa using this

theorem get_user_data_find (db : Db) (userId guildId : Nat) :
    ∃ r, findUser (get_user_data db userId guildId).1 userId guildId = some r ∧
      r.xp = (get_user_data db userId guildId).2.1 ∧
      r.level = (get_user_data db userId guildId).2.2 := by
  unfold get_user_data
  cases h : findUser db userId guildId with
  | some r => exact ⟨r, by simp [h], rfl, rfl⟩
  | none =>
      refine ⟨⟨userId, guildId, 0, 1⟩, ?_, rfl, rfl⟩
      unfold findUser at h ⊢
      simp only [List.find?_append, h]
      simp [List.find?]

theorem get_user_data_of_found (db : Db) (userId guildId : Nat) (r : UserRow)
    (h : findUser db userId guildId = some r) :
    get_user_data db userId guildId = (db, r.xp, r.level) := by
  unfold get_user_data
  rw [h]

theorem find?_map_rowUpdate (userId guildId : Nat) (f : UserRow → UserRow)
    (hf : ∀ r, (f r).userId = r.userId ∧ (f r).guildId = r.guildId)
    (l : List UserRow) :
    (l.map (fun r =>
        if r.userId = userId ∧ r.guildId = guildId then f r else r)).find?
        (fun r => r.userId = userId ∧ r.guildId = guildId) =
      (l.find? (fun r => r.userId = userId ∧ r.guildId = guildId)).map
        (fun r => if r.userId = userId ∧ r.guildId = guildId then f r else r) := by
  induction l with
  | nil => rfl
  | cons r rest ih =>
      by_cases hr : r.userId = userId ∧ r.guildId = guildId
      · simp only [List.map_cons, if_pos hr]
        rw [List.find?_cons_of_pos _ (by simp [(hf r).1, (hf r).2, hr.1, hr.2]),
          List.find?_cons_of_pos _ (by simp [hr.1, hr.2])]
        simp [if_pos hr]
      · simp only [List.map_cons, if_neg hr]
        rw [List.find?_cons_of_neg _ (by simpa using hr),
          List.find?_cons_of_neg _ (by simpa using hr)]
        exact ih

theorem findUser_setUserXp (db : Db) (userId guildId : Nat) (xp : Int) :
    findUser (setUserXp db userId guildId xp) userId guildId =
      (findUser db userId guildId).map (fun r => { r with xp := xp }) := by
  have h := find?_map_rowUpdate userId guildId (fun r => { r with xp := xp })
    (fun _ => ⟨rfl, rfl⟩) db.users
  unfold findUser setUserXp
  rw [h]
  cases hf : db.users.find? (fun r => r.userId = userId ∧ r.guildId = guildId) with
  | none => rfl
  | some r =>
      obtain ⟨h1, h2⟩ : r.userId = userId ∧ r.guildId = guildId := by
        simpa using List.find?_some hf
      simp [h1, h2]

theorem findUser_setUserLevel (db : Db) (userId guildId : Nat) (level : Nat) :
    findUser (setUserLevel db userId guildId level) userId guildId =
      (findUser db userId guildId).map (fun r => { r with level := level }) := by
  have h := find?_map_rowUpdate userId guildId (fun r => { r with level := level })
    (fun _ => ⟨rfl, rfl⟩) db.users
  unfold findUser setUserLevel
  rw [h]
  cases hf : db.users.find? (fun r => r.userId = userId ∧ r.guildId = guildId) with
  | none => rfl
  | some r =>
      obtain ⟨h1, h2⟩ : r.userId = userId ∧ r.guildId = guildId := by
        simpa using List.find?_some hf
      simp [h1, h2]

theorem get_user_data_frame (db : Db) (userId guildId : Nat) :
    (get_user_data db userId guildId).1.quests = db.quests ∧
    (get_user_data db userId guildId).1.streakGains = db.streakGains ∧
    (get_user_data db userId guildId).1.whitelist = db.whitelist := by
  unfold get_user_data
  cases findUser db userId guildId <;> exact ⟨rfl, rfl, rfl⟩

theorem calculate_total_user_xp_db_of_found (db : Db) (assigns : Assignments)
    (live : LiveRead) (userId guildId : Nat) (r : UserRow)
    (h : findUser db userId guildId = some r) :
    calculate_total_user_xp db assigns live userId guildId =
      (db, (calculate_total_user_xp db assigns live userId guildId).2) := by
  unfold calculate_total_user_xp
  cases live <;> rw [get_user_data_of_found db userId guildId r h]

/-- C7: on all three live-read failure modes (guild unresolvable, member
unresolvable, exception while reading) the aggregator returns the stored
base XP alone; being a total Lean function, it never propagates a
failure to its caller. -/
theorem calculate_total_xp_fallback (db : Db) (assigns : Assignments)
    (userId guildId : Nat) :
    (calculate_total_user_xp db assigns .noGuild userId guildId).2 =
      (get_user_data db userId guildId).2.1 ∧
    (calculate_total_user_xp db assigns .noMember userId guildId).2 =
      (get_user_data db userId guildId).2.1 ∧
    (calculate_total_user_xp db assigns .raised userId guildId).2 =
      (get_user_data db userId guildId).2.1 := by
  refine ⟨?_, ?_, ?_⟩ <;>
    · unfold calculate_total_user_xp
      rcases get_user_data db userId guildId with ⟨db1, baseXp, lvl⟩
      rfl

theorem get_user_data_found (db db1 : Db) (userId guildId : Nat)
    (currentXp : Int) (oldLevel : Nat)
    (hgud : get_user_data db userId guildId = (db1, currentXp, oldLevel)) :
    ∃ r, findUser db1 userId guildId = some r ∧ r.xp = currentXp ∧
      r.level = oldLevel := by
  obtain ⟨r, h1, h2, h3⟩ := get_user_data_find db userId guildId
  rw [hgud] at h1 h2 h3
  exact ⟨r, h1, h2, h3⟩

/-- `update_user_xp` with both internal reads resolved. -/
theorem update_user_xp_eq (db : Db) (assigns : Assignments) (live : LiveRead)
    (userId guildId : Nat) (xpChange : Int) (db1 db3 : Db) (currentXp : Int)
    (oldLevel : Nat) (totalXp : Int)
    (hgud : get_user_data db userId guildId = (db1, currentXp, oldLevel))
    (hcalc : calculate_total_user_xp
      (setUserXp db1 userId guildId (max 0 (currentXp + xpChange)))
      assigns live userId guildId = (db3, totalXp)) :
    update_user_xp db assigns live userId guildId xpChange =
      if oldLevel ≠ calculate_level totalXp then
        (setUserLevel db3 userId guildId (calculate_level totalXp), totalXp,
          calculate_level totalXp, some (oldLevel, calculate_level totalXp))
      else (db3, totalXp, calculate_level totalXp, none) := by
  unfold update_user_xp
  simp only [hgud]
  simp only [hcalc]

/-- C9: after `update_user_xp`, the stored base XP of the target user is
`max 0 (previous base XP + xp_change)`; in particular it is never
negative. -/
theorem update_user_xp_clamps (db : Db) (assigns : Assignments) (live : LiveRead)
    (userId guildId : Nat) (xpChange : Int) :
    ∃ r, findUser (update_user_xp db assigns live userId guildId xpChange).1
        userId guildId = some r ∧
      r.xp = max 0 ((get_user_data db userId guildId).2.1 + xpChange) ∧
      0 ≤ r.xp := by
  rcases hgud : get_user_data db userId guildId with ⟨db1, currentXp, oldLevel⟩
  obtain ⟨r1, hr1, hxp1, -⟩ := get_user_data_found db db1 userId guildId
    currentXp oldLevel hgud
  have hset : findUser (setUserXp db1 userId guildId
      (max 0 (currentXp + xpChange))) userId guildId =
      some { r1 with xp := max 0 (currentXp + xpChange) } := by
    rw [findUser_setUserXp, hr1]; rfl
  rcases hc : calculate_total_user_xp (setUserXp db1 userId guildId
      (max 0 (currentXp + xpChange))) assigns live userId guildId with ⟨db3, totalXp⟩
  have hdb3 : db3 = setUserXp db1 userId guildId (max 0 (currentXp + xpChange)) := by
    have := calculate_total_user_xp_db_of_found
      (setUserXp db1 userId guildId (max 0 (currentXp + xpChange))) assigns live
      userId guildId _ hset
    rw [hc] at this
    exact congrArg Prod.fst this
  subst hdb3
  rw [update_user_xp_eq db assigns live userId guildId xpChange db1 _ currentXp
    oldLevel totalXp hgud hc]
  by_cases hlvl : oldLevel ≠ calculate_level totalXp
  · rw [if_pos hlvl]
    refine ⟨{ userId := r1.userId, guildId := r1.guildId,
              xp := max 0 (currentXp + xpChange),
              level := calculate_level totalXp }, ?_, rfl, by simp⟩
    show findUser (setUserLevel (setUserXp db1 userId guildId
        (max 0 (currentXp + xpChange))) userId guildId
        (calculate_level totalXp)) userId guildId = _
    rw [findUser_setUserLevel, hset]
    rfl
  · rw [if_neg hlvl]
    exact ⟨{ userId := r1.userId, guildId := r1.guildId,
             xp := max 0 (currentXp + xpChange), level := r1.level },
      hset, rfl, by simp⟩

/-! ## C1: the aggregation formula -/

theorem lookup_mem (assigns : Assignments) (key : String) (d : RoleAssign)
    (h : assigns.lookup key = some d) : (key, d) ∈ assigns := by
  induction assigns with
  | nil => simp [List.lookup] at h
  | cons p rest ih =>
      cases p with
      | mk key' d' =>
          by_cases hk : key = key'
          · subst hk
            simp [List.lookup] at h
            simp [h]
          · have hbeq : (key == key') = false := beq_eq_false_iff_ne.mpr hk
            rw [List.lookup, hbeq] at h
            exact List.mem_cons_of_mem _ (ih h)

theorem get_role_xp_and_type_inv (assigns : Assignments) (key : String)
    (xpAmount : Int) (roleType : String)
    (h : get_role_xp_and_type assigns key = some (xpAmount, roleType)) :
    ∃ d, assigns.lookup key = some d ∧ d.xp = xpAmount ∧ d.type = roleType := by
  unfold get_role_xp_and_type at h
  cases hl : assigns.lookup key with
  | none => rw [hl] at h; simp at h
  | some d =>
      rw [hl] at h
      have hp : (d.xp, d.type) = (xpAmount, roleType) := Option.some.inj h
      exact ⟨d, rfl, congrArg Prod.fst hp, congrArg Prod.snd hp⟩

/-- The badge-role XP the spec formula attributes to a single role: its
assigned XP when it carries an explicit `"badge"` assignment, else 0. -/
def assignedBadgeXp (assigns : Assignments) (role : Role) : Int :=
  match get_role_xp_and_type assigns (toString role.id) with
  | some (xpAmount, roleType) => if roleType = "badge" then xpAmount else 0
  | none => 0

/-- Whether a role carries an explicit `"badge"` assignment. -/
def isBadgeAssigned (assigns : Assignments) (role : Role) : Bool :=
  match get_role_xp_and_type assigns (toString role.id) with
  | some (_, roleType) => roleType = "badge"
  | none => false

/-- The spec's aggregation formula, written exactly as the claim states
it: base XP, plus the XP of each currently-held non-level role with an
explicit Badge assignment, plus 5 for each currently-held unassigned
role whose name contains "badge" case-insensitively, plus accumulated
streak XP. -/
def totalXp_claimed (db : Db) (assigns : Assignments) (roles : List Role)
    (userId guildId : Nat) : Int :=
  (get_user_data db userId guildId).2.1 +
    ((roles.filter (fun r =>
        !pyStartsWith r.name "Level " && isBadgeAssigned assigns r)).map
      (assignedBadgeXp assigns)).sum +
    5 * (((roles.filter (fun r =>
        !pyStartsWith r.name "Level " &&
        !(get_role_xp_and_type assigns (toString r.id)).isSome &&
        pyContains (pyLower r.name) "badge")).length : Int)) +
    get_accumulated_streak_xp db userId guildId

theorem customRoleXp_eq_claimed (assigns : Assignments)
    (htypes : ∀ p ∈ assigns, p.2.type = "badge" ∨ p.2.type = "streak")
    (roles : List Role) :
    customRoleXp assigns roles =
      ((roles.filter (fun r =>
          !pyStartsWith r.name "Level " && isBadgeAssigned assigns r)).map
        (assignedBadgeXp assigns)).sum := by
  induction roles with
  | nil => rfl
  | cons role rest ih =>
      by_cases hlvl : pyStartsWith role.name "Level "
      · simp [customRoleXp, List.filter_cons, hlvl, ih]
      · cases hget : get_role_xp_and_type assigns (toString role.id) with
        | none =>
            have hba : isBadgeAssigned assigns role = false := by
              unfold isBadgeAssigned
              rw [hget]
            simp [customRoleXp, List.filter_cons, hlvl, hget, hba, ih]
        | some xt =>
            rcases xt with ⟨xpAmount, roleType⟩
            obtain ⟨d, hld, hdx, hdt⟩ :=
              get_role_xp_and_type_inv assigns _ _ _ hget
            have htype : roleType = "badge" ∨ roleType = "streak" := by
              have := htypes _ (lookup_mem _ _ _ hld)
              rw [hdt] at this
              exact this
            by_cases hstreak : roleType = "streak"
            · have hba : isBadgeAssigned assigns role = false := by
                unfold isBadgeAssigned
                rw [hget]
                show decide (roleType = "badge") = false
                subst hstreak
                decide
              simp [customRoleXp, List.filter_cons, hlvl, hget, hstreak, hba, ih]
            · have hbadge : roleType = "badge" := htype.resolve_right hstreak
              have hba : isBadgeAssigned assigns role = true := by
                unfold isBadgeAssigned
                rw [hget]
                show decide (roleType = "badge") = true
                simp [hbadge]
              have habx : assignedBadgeXp assigns role = xpAmount := by
                unfold assignedBadgeXp
                rw [hget]
                show (if roleType = "badge" then xpAmount else 0) = xpAmount
                rw [if_pos hbadge]
              simp [customRoleXp, List.filter_cons, hlvl, hget, hstreak, hba,
                habx, ih]

theorem autoRoleXp_eq_claimed (assigns : Assignments) (roles : List Role) :
    autoRoleXp assigns roles =
      5 * (((roles.filter (fun r =>
          !pyStartsWith r.name "Level " &&
          !(get_role_xp_and_type assigns (toString r.id)).isSome &&
          pyContains (pyLower r.name) "badge")).length : Int)) := by
  induction roles with
  | nil => rfl
  | cons role rest ih =>
      by_cases hlvl : pyStartsWith role.name "Level "
      · simp [autoRoleXp, List.filter_cons, hlvl, ih]
      · cases hget : get_role_xp_and_type assigns (toString role.id) with
        | some xt =>
            simp [autoRoleXp, List.filter_cons, hlvl, hget, ih]
        | none =>
            by_cases hbn : pyContains (pyLower role.name) "badge"
            · simp [autoRoleXp, List.filter_cons, hlvl, hget, hbn, ih]
              try push_cast
              try ring
            · simp [autoRoleXp, List.filter_cons, hlvl, hget, hbn, ih]

/-- C1: when every stored role assignment is of type `"badge"` or
`"streak"` (the only two values the assignment command accepts, bot.py
line 1983), the aggregator's result on a successful live read equals
the spec formula: base XP + badge-assigned XP of held non-level roles +
5 per held unassigned badge-named role + accumulated streak XP.
Level-marker roles and currently-held streak-assigned roles contribute
nothing to the first two sums by construction of the formula. -/
theorem calculate_total_user_xp_spec (db : Db) (assigns : Assignments)
    (roles : List Role) (userId guildId : Nat)
    (htypes : ∀ p ∈ assigns, p.2.type = "badge" ∨ p.2.type = "streak") :
    (calculate_total_user_xp db assigns (.ok roles) userId guildId).2 =
      totalXp_claimed db assigns roles userId guildId := by
  unfold calculate_total_user_xp
  rcases hgud : get_user_data db userId guildId with ⟨db1, baseXp, lvl⟩
  have hstreak : get_accumulated_streak_xp db1 userId guildId =
      get_accumulated_streak_xp db userId guildId := by
    have h1 : db1 = (get_user_data db userId guildId).1 := by rw [hgud]
    rw [h1]
    unfold get_accumulated_streak_xp
    rw [(get_user_data_frame db userId guildId).2.1]
  show baseXp + customRoleXp assigns roles + autoRoleXp assigns roles +
      get_accumulated_streak_xp db1 userId guildId =
    totalXp_claimed db assigns roles userId guildId
  rw [hstreak, customRoleXp_eq_claimed assigns htypes roles,
    autoRoleXp_eq_claimed assigns roles]
  unfold totalXp_claimed
  rw [hgud]

/-- Witness for C1 on a concrete state: base XP 40, a badge-assigned
role worth 20, a held streak-assigned role (contributing nothing
directly), an unassigned "Gold Badge" role worth the 5-XP fallback, a
held level marker (ignored), and one logged streak gain of 10:
total = 40 + 20 + 5 + 10 = 75. -/
theorem calculate_total_user_xp_spec_witness :
    (∀ p ∈ ([("5", ⟨20, "badge"⟩), ("7", ⟨10, "streak"⟩)] : Assignments),
      p.2.type = "badge" ∨ p.2.type = "streak") ∧
    (calculate_total_user_xp
      ⟨[⟨1, 1, 40, 1⟩], [], [⟨1, 1, 7, "Streaky", 10⟩], []⟩
      [("5", ⟨20, "badge"⟩), ("7", ⟨10, "streak"⟩)]
      (.ok [⟨5, "Cool Role"⟩, ⟨7, "Streaky"⟩, ⟨9, "Gold Badge"⟩, ⟨3, "Level 1"⟩])
      1 1).2 =
      totalXp_claimed
        ⟨[⟨1, 1, 40, 1⟩], [], [⟨1, 1, 7, "Streaky", 10⟩], []⟩
        [("5", ⟨20, "badge"⟩), ("7", ⟨10, "streak"⟩)]
        [⟨5, "Cool Role"⟩, ⟨7, "Streaky"⟩, ⟨9, "Gold Badge"⟩, ⟨3, "Level 1"⟩]
        1 1 :=
  ⟨by decide, calculate_total_user_xp_spec _ _ _ 1 1 (by decide)⟩

/-! ## The event reactor: opt-in, quest completions, XP commands -/

/-- `QuestBot.is_user_opted_in` (bot.py lines 442-460): the user is
opted in iff they currently hold a `Level `-prefixed role; an
unresolvable guild, an unresolvable member, or an exception during the
check all yield `False`. -/
def is_user_opted_in (live : LiveRead) : Bool :=
  match live with
  | .noGuild => false
  | .noMember => false
  | .raised => false
  | .ok roles => roles.any (fun role => pyStartsWith role.name "Level ")

/-- `SELECT ... FROM quests WHERE message_id = ?`. -/
def findQuest (db : Db) (messageId : Nat) : Option QuestRow :=
  db.quests.find? (fun q => q.messageId = messageId)

/-- `UPDATE quests SET completed_users = ? WHERE message_id = ?`. -/
def setQuestCompleted (db : Db) (messageId : Nat) (completedUsers : List Nat) : Db :=
  { db with
    quests := db.quests.map (fun q =>
      if q.messageId = messageId then { q with completedUsers := completedUsers }
      else q) }

/-- The quest-completion branch of `on_reaction_add` (bot.py lines
704-740): look up the quest by message id; ignore the event unless the
actor is opted in; no-op when the actor already appears in
`completed_users`; otherwise award the stored reward (defaulting NULL
to 50) through `update_user_xp` and append the actor to
`completed_users`.  The boolean reports whether a completion
notification is emitted. -/
def on_reaction_quest (db : Db) (assigns : Assignments) (live : LiveRead)
    (userId guildId messageId : Nat) : Db × Bool :=
  match findQuest db messageId with
  | none => (db, false)
  | some q =>
      if ¬ is_user_opted_in live then (db, false)
      else
        if userId ∈ q.completedUsers then (db, false)
        else
          (setQuestCompleted
            (update_user_xp db assigns live userId guildId (q.xpReward.getD 50)).1
            messageId (q.completedUsers ++ [userId]), true)

/-- `add_xp_command` (bot.py lines 1359-1388): reject the adjustment
when the target user is not opted in, else apply `update_user_xp`.
The boolean reports whether the adjustment was applied. -/
def add_xp_command (db : Db) (assigns : Assignments) (live : LiveRead)
    (userId guildId : Nat) (amount : Int) : Db × Bool :=
  if ¬ is_user_opted_in live then (db, false)
  else ((update_user_xp db assigns live userId guildId amount).1, true)

/-- C10: whenever the guild or member is unresolvable or the opt-in
check raises, `is_user_opted_in` returns false, and consequently a
quest-completion acknowledgement and an administrative XP adjustment
both leave the store untouched and are rejected. -/
theorem opted_in_false_on_unreadable (live : LiveRead)
    (h : live = .noGuild ∨ live = .noMember ∨ live = .raised)
    (db : Db) (assigns : Assignments) (userId guildId messageId : Nat)
    (amount : Int) :
    is_user_opted_in live = false ∧
    on_reaction_quest db assigns live userId guildId messageId = (db, false) ∧
    add_xp_command db assigns live userId guildId amount = (db, false) := by
  have hopt : is_user_opted_in live = false := by
    rcases h with rfl | rfl | rfl <;> rfl
  refine ⟨hopt, ?_, ?_⟩
  · unfold on_reaction_quest
    cases findQuest db messageId with
    | none => rfl
    | some q => simp [hopt]
  · unfold add_xp_command
    rw [if_pos (by simp [hopt])]

theorem calculate_total_user_xp_fst (db : Db) (assigns : Assignments)
    (live : LiveRead) (userId guildId : Nat) :
    (calculate_total_user_xp db assigns live userId guildId).1 =
      (get_user_data db userId guildId).1 := by
  cases live <;>
    · unfold calculate_total_user_xp
      rcases hgud : get_user_data db userId guildId with ⟨db1, x, l⟩
      rfl

theorem update_user_xp_frame (db : Db) (assigns : Assignments) (live : LiveRead)
    (userId guildId : Nat) (xpChange : Int) :
    (update_user_xp db assigns live userId guildId xpChange).1.quests = db.quests ∧
    (update_user_xp db assigns live userId guildId xpChange).1.streakGains =
      db.streakGains ∧
    (update_user_xp db assigns live userId guildId xpChange).1.whitelist =
      db.whitelist := by
  rcases hgud : get_user_data db userId guildId with ⟨db1, currentXp, oldLevel⟩
  have hdb1 : db1 = (get_user_data db userId guildId).1 := by rw [hgud]
  rcases hc : calculate_total_user_xp
      (setUserXp db1 userId guildId (max 0 (currentXp + xpChange)))
      assigns live userId guildId with ⟨db3, totalXp⟩
  have hdb3 : db3 = (get_user_data
      (setUserXp db1 userId guildId (max 0 (currentXp + xpChange)))
      userId guildId).1 := by
    have h := calculate_total_user_xp_fst
      (setUserXp db1 userId guildId (max 0 (currentXp + xpChange)))
      assigns live userId guildId
    rw [hc] at h
    exact h
  rw [update_user_xp_eq db assigns live userId guildId xpChange db1 db3
    currentXp oldLevel totalXp hgud hc]
  have hq3 : db3.quests = db.quests := by
    rw [hdb3, (get_user_data_frame _ _ _).1]
    show db1.quests = db.quests
    rw [hdb1, (get_user_data_frame _ _ _).1]
  have hs3 : db3.streakGains = db.streakGains := by
    rw [hdb3, (get_user_data_frame _ _ _).2.1]
    show db1.streakGains = db.streakGains
    rw [hdb1, (get_user_data_frame _ _ _).2.1]
  have hw3 : db3.whitelist = db.whitelist := by
    rw [hdb3, (get_user_data_frame _ _ _).2.2]
    show db1.whitelist = db.whitelist
    rw [hdb1, (get_user_data_frame _ _ _).2.2]
  by_cases hlvl : oldLevel ≠ calculate_level totalXp
  · rw [if_pos hlvl]
    exact ⟨hq3, hs3, hw3⟩
  · rw [if_neg hlvl]
    exact ⟨hq3, hs3, hw3⟩

theorem findQuest_congr (db1 db2 : Db) (h : db1.quests = db2.quests)
    (messageId : Nat) : findQuest db1 messageId = findQuest db2 messageId := by
  unfold findQuest
  rw [h]

theorem findQuest_setQuestCompleted (db : Db) (messageId : Nat)
    (completedUsers : List Nat) :
    findQuest (setQuestCompleted db messageId completedUsers) messageId =
      (findQuest db messageId).map
        (fun q => { q with completedUsers := completedUsers }) := by
  show (db.quests.map (fun q =>
      if q.messageId = messageId then { q with completedUsers := completedUsers }
      else q)).find? (fun q => q.messageId = messageId) =
    (db.quests.find? (fun q => q.messageId = messageId)).map
      (fun q => { q with completedUsers := completedUsers })
  induction db.quests with
  | nil => rfl
  | cons q rest ih =>
      by_cases hq : q.messageId = messageId
      · simp only [List.map_cons, if_pos hq]
        rw [List.find?_cons_of_pos _ (by simp [hq]),
          List.find?_cons_of_pos _ (by simp [hq])]
        rfl
      · simp only [List.map_cons, if_neg hq]
        rw [List.find?_cons_of_neg _ (by simpa using hq),
          List.find?_cons_of_neg _ (by simpa using hq)]
        exact ih

/-- A fresh quest acknowledgement by an opted-in user awards the reward
and appends the user to the completed list. -/
theorem on_reaction_quest_eq_complete (db : Db) (assigns : Assignments)
    (live : LiveRead) (userId guildId messageId : Nat) (q : QuestRow)
    (hq : findQuest db messageId = some q)
    (hopt : is_user_opted_in live = true)
    (hnew : userId ∉ q.completedUsers) :
    on_reaction_quest db assigns live userId guildId messageId =
      (setQuestCompleted
        (update_user_xp db assigns live userId guildId (q.xpReward.getD 50)).1
        messageId (q.completedUsers ++ [userId]), true) := by
  unfold on_reaction_quest
  simp only [hq]
  rw [if_neg (by simp [hopt]), if_neg hnew]

/-- An acknowledgement by a user already in the completed list (or a
non-opted-in user) is a no-op. -/
theorem on_reaction_quest_noop_completed (db : Db) (assigns : Assignments)
    (live : LiveRead) (userId guildId messageId : Nat) (q : QuestRow)
    (hq : findQuest db messageId = some q)
    (hmem : userId ∈ q.completedUsers) :
    on_reaction_quest db assigns live userId guildId messageId = (db, false) := by
  unfold on_reaction_quest
  simp only [hq]
  by_cases hopt : is_user_opted_in live = true
  · rw [if_neg (by simp [hopt]), if_pos hmem]
  · rw [if_pos (by simp [hopt])]

/-- C3: for an opted-in user and an existing quest the user has not yet
completed, processing the acknowledgement appends the user to the
quest's completed list and sets the base XP once, and processing it a
second time (under any live role state) is a no-op on the store. -/
theorem quest_completion_idempotent (db : Db) (assigns : Assignments)
    (live live2 : LiveRead) (userId guildId messageId : Nat) (q : QuestRow)
    (hq : findQuest db messageId = some q)
    (hopt : is_user_opted_in live = true)
    (hnew : userId ∉ q.completedUsers) :
    (∃ q1, findQuest (on_reaction_quest db assigns live userId guildId
          messageId).1 messageId = some q1 ∧
      q1.completedUsers = q.completedUsers ++ [userId]) ∧
    (∃ r, findUser (on_reaction_quest db assigns live userId guildId
          messageId).1 userId guildId = some r ∧
      r.xp = max 0 ((get_user_data db userId guildId).2.1 + q.xpReward.getD 50)) ∧
    on_reaction_quest (on_reaction_quest db assigns live userId guildId
        messageId).1 assigns live2 userId guildId messageId =
      ((on_reaction_quest db assigns live userId guildId messageId).1, false) := by
  rw [on_reaction_quest_eq_complete db assigns live userId guildId messageId q
    hq hopt hnew]
  have hquests1 : (update_user_xp db assigns live userId guildId
      (q.xpReward.getD 50)).1.quests = db.quests :=
    (update_user_xp_frame db assigns live userId guildId (q.xpReward.getD 50)).1
  have hfq1 : findQuest (update_user_xp db assigns live userId guildId
      (q.xpReward.getD 50)).1 messageId = some q := by
    rw [findQuest_congr _ db hquests1, hq]
  have hfqF : findQuest (setQuestCompleted
      (update_user_xp db assigns live userId guildId (q.xpReward.getD 50)).1
      messageId (q.completedUsers ++ [userId])) messageId =
      some { q with completedUsers := q.completedUsers ++ [userId] } := by
    rw [findQuest_setQuestCompleted, hfq1]
    rfl
  refine ⟨⟨_, hfqF, rfl⟩, ?_, ?_⟩
  · obtain ⟨r, hr, hrx, -⟩ := update_user_xp_clamps db assigns live userId
      guildId (q.xpReward.getD 50)
    exact ⟨r, hr, hrx⟩
  · exact on_reaction_quest_noop_completed _ assigns live2 userId guildId
      messageId _ hfqF (by simp)

/-- Witness for C3: user 1 (opted in via a held "Level 1" role)
acknowledges quest 900 twice; the completed list and base XP change on
the first acknowledgement only. -/
theorem quest_completion_idempotent_witness :
    (findQuest ⟨[⟨1, 1, 40, 1⟩], [⟨900, 1, 5, "q", "b", [], some 60⟩], [], []⟩ 900 =
      some ⟨900, 1, 5, "q", "b", [], some 60⟩) ∧
    is_user_opted_in (.ok [⟨3, "Level 1"⟩]) = true ∧
    ((1:Nat) ∉ ([] : List Nat)) ∧
    (∃ q1, findQuest (on_reaction_quest
          ⟨[⟨1, 1, 40, 1⟩], [⟨900, 1, 5, "q", "b", [], some 60⟩], [], []⟩
          [] (.ok [⟨3, "Level 1"⟩]) 1 1 900).1 900 = some q1 ∧
      q1.completedUsers = [] ++ [1]) ∧
    on_reaction_quest (on_reaction_quest
        ⟨[⟨1, 1, 40, 1⟩], [⟨900, 1, 5, "q", "b", [], some 60⟩], [], []⟩
        [] (.ok [⟨3, "Level 1"⟩]) 1 1 900).1 [] (.ok [⟨3, "Level 1"⟩]) 1 1 900 =
      ((on_reaction_quest
        ⟨[⟨1, 1, 40, 1⟩], [⟨900, 1, 5, "q", "b", [], some 60⟩], [], []⟩
        [] (.ok [⟨3, "Level 1"⟩]) 1 1 900).1, false) := by
  have h := quest_completion_idempotent
    ⟨[⟨1, 1, 40, 1⟩], [⟨900, 1, 5, "q", "b", [], some 60⟩], [], []⟩
    [] (.ok [⟨3, "Level 1"⟩]) (.ok [⟨3, "Level 1"⟩]) 1 1 900
    ⟨900, 1, 5, "q", "b", [], some 60⟩ (by decide) (by decide) (by decide)
  exact ⟨by decide, by decide, by decide, h.1, h.2.2⟩

/-- Witness for C10 at `live = .noGuild` on a small concrete store. -/
theorem opted_in_false_on_unreadable_witness :
    is_user_opted_in .noGuild = false ∧
    on_reaction_quest ⟨[⟨1, 1, 40, 1⟩], [⟨900, 1, 5, "q", "b", [], some 50⟩], [], []⟩
      [] .noGuild 1 1 900 =
      (⟨[⟨1, 1, 40, 1⟩], [⟨900, 1, 5, "q", "b", [], some 50⟩], [], []⟩, false) ∧
    add_xp_command ⟨[⟨1, 1, 40, 1⟩], [⟨900, 1, 5, "q", "b", [], some 50⟩], [], []⟩
      [] .noGuild 1 1 25 =
      (⟨[⟨1, 1, 40, 1⟩], [⟨900, 1, 5, "q", "b", [], some 50⟩], [], []⟩, false) :=
  opted_in_false_on_unreadable .noGuild (Or.inl rfl) _ [] 1 1 900 25

/-! ## C4: streak accumulation via role gains -/

/-- `check_and_update_level_roles` (bot.py lines 742-766): read the
cached level, recompute total XP and level, store the new level and
request a marker sync when they differ; returns (old level, new level,
total) plus the optional sync request. -/
def check_and_update_level_roles (db : Db) (assigns : Assignments)
    (live : LiveRead) (userId guildId : Nat) :
    Db × Nat × Nat × Int × Option (Nat × Nat) :=
  let (db1, _, oldLevel) := get_user_data db userId guildId
  let (db2, totalXp) := calculate_total_user_xp db1 assigns live userId guildId
  if oldLevel ≠ calculate_level totalXp then
    (setUserLevel db2 userId guildId (calculate_level totalXp), oldLevel,
      calculate_level totalXp, totalXp, some (oldLevel, calculate_level totalXp))
  else (db2, oldLevel, oldLevel, totalXp, none)

/-- The per-added-role body of `on_member_update` (bot.py lines
778-833): skip users who are not opted in; for a streak-assigned role
record a streak gain and recompute the level; for any other assignment,
or for an unassigned role whose name contains "badge", only recompute
the level. -/
def process_added_role (db : Db) (assigns : Assignments) (live : LiveRead)
    (userId guildId : Nat) (role : Role) : Db :=
  if ¬ is_user_opted_in live then db
  else
    match get_role_xp_and_type assigns (toString role.id) with
    | some (xpReward, roleType) =>
        if roleType = "streak" then
          (check_and_update_level_roles
            (record_streak_role_gain db userId guildId role.id role.name xpReward)
            assigns live userId guildId).1
        else
          (check_and_update_level_roles db assigns live userId guildId).1
    | none =>
        if pyContains (pyLower role.name) "badge" then
          (check_and_update_level_roles db assigns live userId guildId).1
        else db

theorem check_and_update_eq (db : Db) (assigns : Assignments) (live : LiveRead)
    (userId guildId : Nat) (db1 : Db) (xp0 : Int) (oldLevel : Nat) (db2 : Db)
    (totalXp : Int)
    (hgud : get_user_data db userId guildId = (db1, xp0, oldLevel))
    (hcalc : calculate_total_user_xp db1 assigns live userId guildId =
      (db2, totalXp)) :
    check_and_update_level_roles db assigns live userId guildId =
      if oldLevel ≠ calculate_level totalXp then
        (setUserLevel db2 userId guildId (calculate_level totalXp), oldLevel,
          calculate_level totalXp, totalXp, some (oldLevel, calculate_level totalXp))
      else (db2, oldLevel, oldLevel, totalXp, none) := by
  unfold check_and_update_level_roles
  simp only [hgud]
  simp only [hcalc]

theorem check_and_update_streakGains (db : Db) (assigns : Assignments)
    (live : LiveRead) (userId guildId : Nat) :
    (check_and_update_level_roles db assigns live userId guildId).1.streakGains =
      db.streakGains := by
  rcases hgud : get_user_data db userId guildId with ⟨db1, x, oldLevel⟩
  have hdb1 : db1 = (get_user_data db userId guildId).1 := by rw [hgud]
  rcases hc : calculate_total_user_xp db1 assigns live userId guildId
    with ⟨db2, t⟩
  have hdb2 : db2 = (get_user_data db1 userId guildId).1 := by
    have h := calculate_total_user_xp_fst db1 assigns live userId guildId
    rw [hc] at h
    exact h
  rw [check_and_update_eq db assigns live userId guildId db1 x oldLevel db2 t
    hgud hc]
  have hs : db2.streakGains = db.streakGains := by
    rw [hdb2, (get_user_data_frame _ _ _).2.1, hdb1,
      (get_user_data_frame _ _ _).2.1]
  by_cases hlvl : oldLevel ≠ calculate_level t
  · rw [if_pos hlvl]
    exact hs
  · rw [if_neg hlvl]
    exact hs

/-- A processed streak-role gain by an opted-in user appends exactly one
streak-gain record. -/
theorem process_added_role_streak (db : Db) (assigns : Assignments)
    (live : LiveRead) (userId guildId : Nat) (role : Role) (xpAmount : Int)
    (hass : get_role_xp_and_type assigns (toString role.id) =
      some (xpAmount, "streak"))
    (hopt : is_user_opted_in live = true) :
    (process_added_role db assigns live userId guildId role).streakGains =
      db.streakGains ++ [⟨userId, guildId, role.id, role.name, xpAmount⟩] := by
  unfold process_added_role
  rw [if_neg (by simp [hopt])]
  simp only [hass]
  rw [if_pos trivial, check_and_update_streakGains]
  rfl

/-- C4 (amended): for an OPTED-IN user, each processed gain of a
streak-assigned role appends one record, so N processed gains append N
records and yield `N * xpAmount` additional accumulated streak XP —
independent of which roles the user currently holds (each gain may
occur under any opted-in live role state, in particular with the streak
role absent again). -/
theorem streak_accumulation_additive (assigns : Assignments)
    (userId guildId : Nat) (role : Role) (xpAmount : Int)
    (hass : get_role_xp_and_type assigns (toString role.id) =
      some (xpAmount, "streak")) :
    ∀ (lives : List LiveRead), (∀ l ∈ lives, is_user_opted_in l = true) →
    ∀ (db : Db),
      ((lives.foldl (fun d l => process_added_role d assigns l userId guildId
          role) db).streakGains.filter
        (fun s => s.userId = userId ∧ s.guildId = guildId)).length =
        (db.streakGains.filter
          (fun s => s.userId = userId ∧ s.guildId = guildId)).length +
          lives.length ∧
      get_accumulated_streak_xp
        (lives.foldl (fun d l => process_added_role d assigns l userId guildId
          role) db) userId guildId =
        get_accumulated_streak_xp db userId guildId +
          (lives.length : Int) * xpAmount := by
  intro lives
  induction lives with
  | nil =>
      intro _ db
      simp
  | cons l ls ih =>
      intro hall db
      have hl : is_user_opted_in l = true := hall l (List.mem_cons_self l ls)
      have h1 := process_added_role_streak db assigns l userId guildId role
        xpAmount hass hl
      have hcount : ((process_added_role db assigns l userId guildId
          role).streakGains.filter
          (fun s => s.userId = userId ∧ s.guildId = guildId)).length =
          (db.streakGains.filter
            (fun s => s.userId = userId ∧ s.guildId = guildId)).length + 1 := by
        rw [h1]
        simp [List.filter_append]
      have hacc : get_accumulated_streak_xp
          (process_added_role db assigns l userId guildId role) userId guildId =
          get_accumulated_streak_xp db userId guildId + xpAmount := by
        unfold get_accumulated_streak_xp
        rw [h1]
        simp [List.filter_append]
      obtain ⟨ihc, iha⟩ := ih (fun x hx => hall x (List.mem_cons_of_mem _ hx))
        (process_added_role db assigns l userId guildId role)
      rw [List.foldl_cons] at *
      refine ⟨?_, ?_⟩
      · rw [ihc, hcount, List.length_cons]
        omega
      · rw [iha, hacc, List.length_cons]
        push_cast
        ring

/-- Counterexample to C4 as stated: a user who is NOT opted in (holds no
level marker) gains a streak-assigned role worth 10 XP once; the claim
predicts 1 appended record and accumulated XP 10, but the handler skips
non-opted-in users entirely: 0 records, accumulated XP 0. -/
theorem streak_gain_optout_counterexample :
    get_role_xp_and_type [("7", ⟨10, "streak"⟩)] (toString (7:Nat)) =
      some (10, "streak") ∧
    is_user_opted_in (.ok []) = false ∧
    process_added_role ⟨[], [], [], []⟩ [("7", ⟨10, "streak"⟩)] (.ok []) 1 1
      ⟨7, "roleA"⟩ = ⟨[], [], [], []⟩ ∧
    ¬ (((process_added_role ⟨[], [], [], []⟩ [("7", ⟨10, "streak"⟩)] (.ok []) 1 1
        ⟨7, "roleA"⟩).streakGains.filter
      (fun s => s.userId = 1 ∧ s.guildId = 1)).length = 1) ∧
    ¬ (get_accumulated_streak_xp
      (process_added_role ⟨[], [], [], []⟩ [("7", ⟨10, "streak"⟩)] (.ok []) 1 1
        ⟨7, "roleA"⟩) 1 1 = 1 * 10) := by
  decide

/-- Witness for the amended C4: an opted-in user gains the streak role
three times, never holding it at recompute time; 3 records and 30 XP
accumulate on top of an empty history. -/
theorem streak_accumulation_additive_witness :
    (get_role_xp_and_type [("7", ⟨10, "streak"⟩)] (toString (7:Nat)) =
      some (10, "streak")) ∧
    (∀ l ∈ ([.ok [⟨3, "Level 1"⟩], .ok [⟨3, "Level 1"⟩],
        .ok [⟨3, "Level 1"⟩]] : List LiveRead), is_user_opted_in l = true) ∧
    ((([.ok [⟨3, "Level 1"⟩], .ok [⟨3, "Level 1"⟩],
          .ok [⟨3, "Level 1"⟩]] : List LiveRead).foldl
        (fun d l => process_added_role d [("7", ⟨10, "streak"⟩)] l 1 1
          ⟨7, "Streaky"⟩) ⟨[⟨1, 1, 0, 1⟩], [], [], []⟩).streakGains.filter
      (fun s => s.userId = 1 ∧ s.guildId = 1)).length =
      ((⟨[⟨1, 1, 0, 1⟩], [], [], []⟩ : Db).streakGains.filter
        (fun s => s.userId = 1 ∧ s.guildId = 1)).length + 3 ∧
    get_accumulated_streak_xp
      (([.ok [⟨3, "Level 1"⟩], .ok [⟨3, "Level 1"⟩],
          .ok [⟨3, "Level 1"⟩]] : List LiveRead).foldl
        (fun d l => process_added_role d [("7", ⟨10, "streak"⟩)] l 1 1
          ⟨7, "Streaky"⟩) ⟨[⟨1, 1, 0, 1⟩], [], [], []⟩) 1 1 =
      get_accumulated_streak_xp ⟨[⟨1, 1, 0, 1⟩], [], [], []⟩ 1 1 +
        ((3:Nat) : Int) * 10 := by
  have h := streak_accumulation_additive [("7", ⟨10, "streak"⟩)] 1 1
    ⟨7, "Streaky"⟩ 10 (by decide)
    [.ok [⟨3, "Level 1"⟩], .ok [⟨3, "Level 1"⟩], .ok [⟨3, "Level 1"⟩]]
    (by decide) ⟨[⟨1, 1, 0, 1⟩], [], [], []⟩
  exact ⟨by decide, by decide, h.1, h.2⟩

/-! ## Platform role state: opt-in and the level-role synchronizer -/

/-- The roles a member currently holds. -/
structure MemberState where
  roles : List Role
deriving DecidableEq, Repr

/-- A guild as the handlers see it: its role list and the member under
consideration (`none` when `guild.get_member` fails). -/
structure GuildState where
  roles : List Role
  member : Option MemberState
deriving DecidableEq, Repr

/-- `member.add_roles(r)`: Discord role sets are idempotent, so granting
an already-held role changes nothing. -/
def addRole (roles : List Role) (r : Role) : List Role :=
  if r ∈ roles then roles else roles ++ [r]

/-- `QuestBot.create_level_roles` (bot.py lines 188-207): for levels 1
to 10, create the role named `Level n` unless a role of that name
already exists.  `fresh` models the platform's id allocation for newly
created roles. -/
def create_level_roles (guildRoles : List Role) (fresh : Nat → Nat) : List Role :=
  (List.range 10).foldl (fun rs i =>
    if (rs.find? (fun r => r.name = "Level " ++ toString (i + 1))).isSome then rs
    else rs ++ [⟨fresh (i + 1), "Level " ++ toString (i + 1)⟩]) guildRoles

/-- `INSERT OR IGNORE INTO users (user_id, guild_id, xp, level) VALUES
(?, ?, 0, 1)`. -/
def insertUserIgnore (db : Db) (userId guildId : Nat) : Db :=
  if (findUser db userId guildId).isSome then db
  else { db with users := db.users ++ [⟨userId, guildId, 0, 1⟩] }

/-- The opt-in branch of `on_reaction_add` (bot.py lines 611-702): if
the member is resolvable and holds no `Level `-prefixed role, grant the
`Level 1` role (creating the ladder first when it is missing) and
insert a zero-XP ledger row unless one exists; otherwise do nothing. -/
def on_reaction_optin (db : Db) (gs : GuildState) (fresh : Nat → Nat)
    (userId guildId : Nat) : Db × GuildState :=
  match gs.member with
  | none => (db, gs)
  | some m =>
      if m.roles.any (fun role => pyStartsWith role.name "Level ") then (db, gs)
      else
        match gs.roles.find? (fun r => r.name = "Level 1") with
        | some level1 =>
            (insertUserIgnore db userId guildId,
              { gs with member := some ⟨addRole m.roles level1⟩ })
        | none =>
            match (create_level_roles gs.roles fresh).find?
                (fun r => r.name = "Level 1") with
            | some level1 =>
                (insertUserIgnore db userId guildId,
                  { roles := create_level_roles gs.roles fresh,
                    member := some ⟨addRole m.roles level1⟩ })
            | none =>
                (db, { gs with roles := create_level_roles gs.roles fresh })

theorem mem_addRole_self (roles : List Role) (r : Role) :
    r ∈ addRole roles r := by
  unfold addRole
  by_cases h : r ∈ roles
  · rw [if_pos h]
    exact h
  · rw [if_neg h]
    simp

/-- C8: an acknowledgement on the opt-in message is a no-op (no ledger
insert, no role change at all) for a user already holding a level
marker; for a user with no level marker (with the `Level 1` role
present in the guild) it grants the `Level 1` role without duplicating
it and inserts a zero-XP ledger row only when none exists. -/
theorem optin_idempotent (db : Db) (gs : GuildState) (fresh : Nat → Nat)
    (userId guildId : Nat) (m : MemberState) (level1 : Role)
    (hm : gs.member = some m)
    (hL1 : gs.roles.find? (fun r => r.name = "Level 1") = some level1) :
    (m.roles.any (fun role => pyStartsWith role.name "Level ") = true →
      on_reaction_optin db gs fresh userId guildId = (db, gs)) ∧
    (m.roles.any (fun role => pyStartsWith role.name "Level ") = false →
      on_reaction_optin db gs fresh userId guildId =
        (insertUserIgnore db userId guildId,
          { gs with member := some ⟨addRole m.roles level1⟩ }) ∧
      level1 ∈ addRole m.roles level1 ∧
      (level1 ∈ m.roles → addRole m.roles level1 = m.roles) ∧
      ((findUser db userId guildId).isSome →
        insertUserIgnore db userId guildId = db) ∧
      (findUser db userId guildId = none →
        (insertUserIgnore db userId guildId).users =
          db.users ++ [⟨userId, guildId, 0, 1⟩])) := by
  constructor
  · intro hhas
    unfold on_reaction_optin
    simp only [hm]
    rw [if_pos hhas]
  · intro hno
    refine ⟨?_, mem_addRole_self m.roles level1, ?_, ?_, ?_⟩
    · unfold on_reaction_optin
      simp only [hm]
      rw [if_neg (by simp [hno])]
      simp only [hL1]
    · intro hmem
      unfold addRole
      rw [if_pos hmem]
    · intro hsome
      unfold insertUserIgnore
      rw [if_pos hsome]
    · intro hnone
      unfold insertUserIgnore
      rw [if_neg (by simp [hnone])]

/-- Witness for C8: a member with no roles opts in while guild role 11
is named "Level 1"; the marker is granted and a ledger row appears. -/
theorem optin_idempotent_witness :
    ((⟨11, "Level 1"⟩ : Role) ∈ addRole ([] : List Role) ⟨11, "Level 1"⟩) ∧
    (on_reaction_optin ⟨[], [], [], []⟩
        ⟨[⟨11, "Level 1"⟩], some ⟨[]⟩⟩ (fun n => n) 1 1 =
      (insertUserIgnore ⟨[], [], [], []⟩ 1 1,
        { roles := [⟨11, "Level 1"⟩],
          member := some ⟨addRole [] ⟨11, "Level 1"⟩⟩ })) ∧
    (findUser ⟨[], [], [], []⟩ 1 1 = none →
      (insertUserIgnore ⟨[], [], [], []⟩ 1 1).users =
        [] ++ [⟨1, 1, 0, 1⟩]) := by
  have h := optin_idempotent ⟨[], [], [], []⟩ ⟨[⟨11, "Level 1"⟩], some ⟨[]⟩⟩
    (fun n => n) 1 1 ⟨[]⟩ ⟨11, "Level 1"⟩ rfl (by decide)
  obtain ⟨hstep, hmem, -, -, hins⟩ := h.2 (by decide)
  exact ⟨hmem, hstep, hins⟩

/-! ## C2: the level-role synchronizer -/

/-- `QuestBot.update_user_level_role` (bot.py lines 209-252): remove
every `Level `-prefixed role other than `Level {new_level}` from the
member, then grant the guild's `Level {new_level}` role (provisioning
the ladder with `create_level_roles` first when it does not exist). -/
def update_user_level_role (gs : GuildState) (fresh : Nat → Nat)
    (newLevel : Nat) : GuildState :=
  match gs.member with
  | none => gs
  | some m =>
      match gs.roles.find? (fun r => r.name = "Level " ++ toString newLevel) with
      | some newRole =>
          { gs with
            member := some ⟨addRole
              (m.roles.filter (fun r =>
                !(pyStartsWith r.name "Level " &&
                  decide (r.name ≠ "Level " ++ toString newLevel))))
              newRole⟩ }
      | none =>
          match (create_level_roles gs.roles fresh).find?
              (fun r => r.name = "Level " ++ toString newLevel) with
          | some newRole =>
              { roles := create_level_roles gs.roles fresh,
                member := some ⟨addRole
                  (m.roles.filter (fun r =>
                    !(pyStartsWith r.name "Level " &&
                      decide (r.name ≠ "Level " ++ toString newLevel))))
                  newRole⟩ }
          | none =>
              { roles := create_level_roles gs.roles fresh,
                member := some ⟨m.roles.filter (fun r =>
                  !(pyStartsWith r.name "Level " &&
                    decide (r.name ≠ "Level " ++ toString newLevel)))⟩ }

/-- Completion of the level-sync task spawned by `update_user_xp` /
`check_and_update_level_roles` via `asyncio.create_task`. -/
def applySync (gs : GuildState) (fresh : Nat → Nat) :
    Option (Nat × Nat) → GuildState
  | none => gs
  | some (_, newLevel) => update_user_level_role gs fresh newLevel

theorem calculate_level_range (xp : Int) :
    1 ≤ calculate_level xp ∧ calculate_level xp ≤ 10 := by
  rw [calculate_level_eq]
  split_ifs <;> omega

theorem pyStartsWith_append (s t : String) : pyStartsWith (s ++ t) s = true := by
  unfold pyStartsWith
  rw [show (s ++ t).data = s.data ++ t.data from rfl,
    List.isPrefixOf_iff_prefix]
  exact ⟨t.data, rfl⟩

theorem nodup_all_eq {l : List Role} {x : Role} (hnd : l.Nodup)
    (hall : ∀ r ∈ l, r = x) : l = [] ∨ l = [x] := by
  cases l with
  | nil => exact Or.inl rfl
  | cons a t =>
      have ha : a = x := hall a (List.mem_cons_self a t)
      right
      cases t with
      | nil => rw [ha]
      | cons b t2 =>
          have hb : b = x := hall b (by simp)
          exfalso
          rw [List.nodup_cons] at hnd
          exact hnd.1 (by rw [ha, ← hb]; simp)

/-- The synchronizer's contract when the member resolves and the target
marker role exists in the guild: afterwards the member's level-marker
roles are exactly the target marker, and the non-marker roles are
untouched. -/
theorem update_user_level_role_spec (gs : GuildState) (fresh : Nat → Nat)
    (newLevel : Nat) (m : MemberState) (newRole : Role)
    (hm : gs.member = some m)
    (hfind : gs.roles.find? (fun r => r.name = "Level " ++ toString newLevel) =
      some newRole)
    (hsub : ∀ r ∈ m.roles, r ∈ gs.roles)
    (huniq : ∀ r1 ∈ gs.roles, ∀ r2 ∈ gs.roles, r1.name = r2.name → r1 = r2)
    (hnodup : m.roles.Nodup) :
    ∃ m', (update_user_level_role gs fresh newLevel).member = some m' ∧
      m'.roles.filter (fun r => pyStartsWith r.name "Level ") = [newRole] ∧
      m'.roles.filter (fun r => !pyStartsWith r.name "Level ") =
        m.roles.filter (fun r => !pyStartsWith r.name "Level ") ∧
      newRole.name = "Level " ++ toString newLevel := by
  have hname : newRole.name = "Level " ++ toString newLevel := by
    have := List.find?_some hfind
    simpa using this
  have hmemg : newRole ∈ gs.roles := List.mem_of_find?_eq_some hfind
  have hPnew : pyStartsWith newRole.name "Level " = true := by
    rw [hname]
    exact pyStartsWith_append "Level " (toString newLevel)
  have hkept_all : ∀ r ∈ m.roles.filter (fun r =>
      !(pyStartsWith r.name "Level " &&
        decide (r.name ≠ "Level " ++ toString newLevel))),
      pyStartsWith r.name "Level " = true → r = newRole := by
    intro r hr hP
    rw [List.mem_filter] at hr
    obtain ⟨hrm, hcond⟩ := hr
    have hrname : r.name = "Level " ++ toString newLevel := by
      by_contra hne
      rw [hP] at hcond
      simp [hne] at hcond
    exact huniq r (hsub r hrm) newRole hmemg (by rw [hrname, hname])
  have hkept_nd : (m.roles.filter (fun r =>
      !(pyStartsWith r.name "Level " &&
        decide (r.name ≠ "Level " ++ toString newLevel)))).Nodup :=
    hnodup.filter _
  have hkeptP : ∀ r ∈ (m.roles.filter (fun r =>
      !(pyStartsWith r.name "Level " &&
        decide (r.name ≠ "Level " ++ toString newLevel)))).filter
      (fun r => pyStartsWith r.name "Level "), r = newRole := by
    intro r hr
    rw [List.mem_filter] at hr
    exact hkept_all r hr.1 hr.2
  unfold update_user_level_role
  simp only [hm, hfind]
  refine ⟨_, rfl, ?_, ?_, hname⟩
  · -- the marker filter of the post-state roles is exactly [newRole]
    rcases nodup_all_eq (hkept_nd.filter _) hkeptP with hnone | hone
    · -- no marker survives the removal pass: addRole appends the target
      have hnotin : newRole ∉ m.roles.filter (fun r =>
          !(pyStartsWith r.name "Level " &&
            decide (r.name ≠ "Level " ++ toString newLevel))) := by
        intro hin
        have : newRole ∈ (m.roles.filter (fun r =>
            !(pyStartsWith r.name "Level " &&
              decide (r.name ≠ "Level " ++ toString newLevel)))).filter
            (fun r => pyStartsWith r.name "Level ") := by
          rw [List.mem_filter]
          exact ⟨hin, hPnew⟩
        rw [hnone] at this
        simp at this
      unfold addRole
      rw [if_neg hnotin, List.filter_append, hnone]
      simp [hPnew]
    · -- the target marker already survived: addRole is the identity
      have hin : newRole ∈ m.roles.filter (fun r =>
          !(pyStartsWith r.name "Level " &&
            decide (r.name ≠ "Level " ++ toString newLevel))) := by
        have : newRole ∈ (m.roles.filter (fun r =>
            !(pyStartsWith r.name "Level " &&
              decide (r.name ≠ "Level " ++ toString newLevel)))).filter
            (fun r => pyStartsWith r.name "Level ") := by
          rw [hone]
          simp
        exact (List.mem_filter.mp this).1
      unfold addRole
      rw [if_pos hin]
      exact hone
  · -- the non-marker roles are untouched by removal and grant
    have hfilter2 : ∀ (l : List Role), (l.filter (fun r =>
        !(pyStartsWith r.name "Level " &&
          decide (r.name ≠ "Level " ++ toString newLevel)))).filter
        (fun r => !pyStartsWith r.name "Level ") =
        l.filter (fun r => !pyStartsWith r.name "Level ") := by
      intro l
      rw [List.filter_filter]
      apply List.filter_congr
      intro r _
      by_cases hP : pyStartsWith r.name "Level " = true
      · simp [hP]
      · simp at hP
        simp [hP]
    unfold addRole
    by_cases hin : newRole ∈ m.roles.filter (fun r =>
        !(pyStartsWith r.name "Level " &&
          decide (r.name ≠ "Level " ++ toString newLevel)))
    · rw [if_pos hin]
      exact hfilter2 m.roles
    · rw [if_neg hin, List.filter_append]
      rw [hfilter2 m.roles]
      simp [hPnew]

theorem calc_total_ok_val (db : Db) (assigns : Assignments) (roles : List Role)
    (userId guildId : Nat) :
    (calculate_total_user_xp db assigns (.ok roles) userId guildId).2 =
      (get_user_data db userId guildId).2.1 + customRoleXp assigns roles +
      autoRoleXp assigns roles + get_accumulated_streak_xp db userId guildId := by
  unfold calculate_total_user_xp
  rcases hgud : get_user_data db userId guildId with ⟨db1, baseXp, lvl⟩
  have hdb1 : db1 = (get_user_data db userId guildId).1 := by rw [hgud]
  have hs : get_accumulated_streak_xp db1 userId guildId =
      get_accumulated_streak_xp db userId guildId := by
    rw [hdb1]
    unfold get_accumulated_streak_xp
    rw [(get_user_data_frame db userId guildId).2.1]
  show baseXp + customRoleXp assigns roles + autoRoleXp assigns roles +
      get_accumulated_streak_xp db1 userId guildId =
    baseXp + customRoleXp assigns roles + autoRoleXp assigns roles +
      get_accumulated_streak_xp db userId guildId
  rw [hs]

theorem customRoleXp_levelfilter (assigns : Assignments) (roles : List Role) :
    customRoleXp assigns roles =
      customRoleXp assigns
        (roles.filter (fun r => !pyStartsWith r.name "Level ")) := by
  induction roles with
  | nil => rfl
  | cons role rest ih =>
      by_cases hP : pyStartsWith role.name "Level "
      · simp [customRoleXp, List.filter_cons, hP, ih]
      · simp only [List.filter_cons]
        have : (!pyStartsWith role.name "Level ") = true := by simp [hP]
        rw [this, if_pos rfl]
        show (if pyStartsWith role.name "Level " = true then 0 else _) +
            customRoleXp assigns rest =
          (if pyStartsWith role.name "Level " = true then 0 else _) +
            customRoleXp assigns (rest.filter _)
        rw [ih]

theorem autoRoleXp_levelfilter (assigns : Assignments) (roles : List Role) :
    autoRoleXp assigns roles =
      autoRoleXp assigns
        (roles.filter (fun r => !pyStartsWith r.name "Level ")) := by
  induction roles with
  | nil => rfl
  | cons role rest ih =>
      by_cases hP : pyStartsWith role.name "Level "
      · simp [autoRoleXp, List.filter_cons, hP, ih]
      · simp only [List.filter_cons]
        have : (!pyStartsWith role.name "Level ") = true := by simp [hP]
        rw [this, if_pos rfl]
        show (if pyStartsWith role.name "Level " = true then 0 else _) +
            autoRoleXp assigns rest =
          (if pyStartsWith role.name "Level " = true then 0 else _) +
            autoRoleXp assigns (rest.filter _)
        rw [ih]

set_option maxHeartbeats 1000000 in
/-- C2: the level-marker invariant.  Assume the platform state is
readable (guild and member resolve, the member's roles back the live
read), the guild's role names are unique and contain the full marker
ladder, the member's role list has no duplicates, and the invariant
held before the operation (the member's level markers are exactly one
role, matching the stored cached level).  Then after `update_user_xp`
and the completion of any level-sync task it spawns, the member holds
exactly one level-marker role, it is the marker for the operation's new
level, and that level equals `calculate_level` of the total XP
recomputed on the post state. -/
theorem level_marker_invariant (db : Db) (assigns : Assignments)
    (gs : GuildState) (fresh : Nat → Nat) (userId guildId : Nat)
    (xpChange : Int) (m : MemberState) (oldMarker : Role)
    (hm : gs.member = some m)
    (hsub : ∀ r ∈ m.roles, r ∈ gs.roles)
    (huniq : ∀ r1 ∈ gs.roles, ∀ r2 ∈ gs.roles, r1.name = r2.name → r1 = r2)
    (hnodup : m.roles.Nodup)
    (hladder : ∀ n, 1 ≤ n → n ≤ 10 →
      ∃ r ∈ gs.roles, r.name = "Level " ++ toString n)
    (hpre : m.roles.filter (fun r => pyStartsWith r.name "Level ") = [oldMarker])
    (hprename : oldMarker.name =
      "Level " ++ toString (get_user_data db userId guildId).2.2) :
    ∃ m' marker,
      (applySync gs fresh
        (update_user_xp db assigns (.ok m.roles) userId guildId
          xpChange).2.2.2).member = some m' ∧
      m'.roles.filter (fun r => pyStartsWith r.name "Level ") = [marker] ∧
      marker.name = "Level " ++ toString
        (update_user_xp db assigns (.ok m.roles) userId guildId
          xpChange).2.2.1 ∧
      (update_user_xp db assigns (.ok m.roles) userId guildId
          xpChange).2.2.1 =
        calculate_level (calculate_total_user_xp
          (update_user_xp db assigns (.ok m.roles) userId guildId xpChange).1
          assigns (.ok m'.roles) userId guildId).2 := by
  rcases hgud : get_user_data db userId guildId with ⟨dbA, currentXp, oldLevel⟩
  obtain ⟨r1, hr1, hxp1, hlvl1⟩ :=
    get_user_data_found db dbA userId guildId currentXp oldLevel hgud
  have hprename' : oldMarker.name = "Level " ++ toString oldLevel := by
    rw [hgud] at hprename
    exact hprename
  rcases hc : calculate_total_user_xp
      (setUserXp dbA userId guildId (max 0 (currentXp + xpChange)))
      assigns (.ok m.roles) userId guildId with ⟨db3, total⟩
  have hset : findUser (setUserXp dbA userId guildId
      (max 0 (currentXp + xpChange))) userId guildId =
      some { r1 with xp := max 0 (currentXp + xpChange) } := by
    rw [findUser_setUserXp, hr1]
    rfl
  have hdb3 : db3 = setUserXp dbA userId guildId (max 0 (currentXp + xpChange)) := by
    have h := calculate_total_user_xp_db_of_found _ assigns (.ok m.roles)
      userId guildId _ hset
    rw [hc] at h
    exact congrArg Prod.fst h
  subst hdb3
  rw [update_user_xp_eq db assigns (.ok m.roles) userId guildId xpChange dbA _
    currentXp oldLevel total hgud hc]
  have hsgA : dbA.streakGains = db.streakGains := by
    have h : dbA = (get_user_data db userId guildId).1 := by rw [hgud]
    rw [h]
    exact (get_user_data_frame db userId guildId).2.1
  have hstX : get_accumulated_streak_xp
      (setUserXp dbA userId guildId (max 0 (currentXp + xpChange)))
      userId guildId = get_accumulated_streak_xp db userId guildId := by
    unfold get_accumulated_streak_xp
    rw [show (setUserXp dbA userId guildId
      (max 0 (currentXp + xpChange))).streakGains = dbA.streakGains from rfl,
      hsgA]
  have htotal_val : total = max 0 (currentXp + xpChange) +
      customRoleXp assigns m.roles + autoRoleXp assigns m.roles +
      get_accumulated_streak_xp db userId guildId := by
    have h := calc_total_ok_val
      (setUserXp dbA userId guildId (max 0 (currentXp + xpChange)))
      assigns m.roles userId guildId
    rw [hc, get_user_data_of_found _ _ _ _ hset, hstX] at h
    exact h
  by_cases hlvlne : oldLevel ≠ calculate_level total
  · rw [if_pos hlvlne]
    show ∃ m' marker,
      (applySync gs fresh (some (oldLevel, calculate_level total))).member =
        some m' ∧
      m'.roles.filter (fun r => pyStartsWith r.name "Level ") = [marker] ∧
      marker.name = "Level " ++ toString (calculate_level total) ∧
      calculate_level total = calculate_level (calculate_total_user_xp
        (setUserLevel (setUserXp dbA userId guildId
          (max 0 (currentXp + xpChange))) userId guildId
          (calculate_level total))
        assigns (.ok m'.roles) userId guildId).2
    obtain ⟨tr, htrmem, htrname⟩ := hladder (calculate_level total)
      (calculate_level_range total).1 (calculate_level_range total).2
    have hfindsome : (gs.roles.find? (fun r =>
        r.name = "Level " ++ toString (calculate_level total))).isSome := by
      rw [List.find?_isSome]
      exact ⟨tr, htrmem, by simp [htrname]⟩
    obtain ⟨newRole, hfind⟩ := Option.isSome_iff_exists.mp hfindsome
    obtain ⟨m', hmem', hfilt, hkeep, hname⟩ := update_user_level_role_spec gs
      fresh (calculate_level total) m newRole hm hfind hsub huniq hnodup
    refine ⟨m', newRole, hmem', hfilt, by rw [hname], ?_⟩
    have hfl : findUser (setUserLevel (setUserXp dbA userId guildId
        (max 0 (currentXp + xpChange))) userId guildId
        (calculate_level total)) userId guildId =
        some { userId := r1.userId, guildId := r1.guildId,
               xp := max 0 (currentXp + xpChange),
               level := calculate_level total } := by
      rw [findUser_setUserLevel, hset]
      rfl
    have hpost := calc_total_ok_val
      (setUserLevel (setUserXp dbA userId guildId
        (max 0 (currentXp + xpChange))) userId guildId (calculate_level total))
      assigns m'.roles userId guildId
    rw [get_user_data_of_found _ _ _ _ hfl] at hpost
    have hstL : get_accumulated_streak_xp
        (setUserLevel (setUserXp dbA userId guildId
          (max 0 (currentXp + xpChange))) userId guildId
          (calculate_level total)) userId guildId =
        get_accumulated_streak_xp db userId guildId := by
      unfold get_accumulated_streak_xp
      rw [show (setUserLevel (setUserXp dbA userId guildId
        (max 0 (currentXp + xpChange))) userId guildId
        (calculate_level total)).streakGains = dbA.streakGains from rfl, hsgA]
    rw [hstL] at hpost
    have hcust : customRoleXp assigns m'.roles = customRoleXp assigns m.roles := by
      rw [customRoleXp_levelfilter assigns m'.roles, hkeep,
        ← customRoleXp_levelfilter assigns m.roles]
    have hauto : autoRoleXp assigns m'.roles = autoRoleXp assigns m.roles := by
      rw [autoRoleXp_levelfilter assigns m'.roles, hkeep,
        ← autoRoleXp_levelfilter assigns m.roles]
    rw [hpost, hcust, hauto]
    show calculate_level total = calculate_level
      (max 0 (currentXp + xpChange) + customRoleXp assigns m.roles +
        autoRoleXp assigns m.roles +
        get_accumulated_streak_xp db userId guildId)
    rw [← htotal_val]
  · rw [if_neg hlvlne]
    push_neg at hlvlne
    show ∃ m' marker,
      (applySync gs fresh none).member = some m' ∧
      m'.roles.filter (fun r => pyStartsWith r.name "Level ") = [marker] ∧
      marker.name = "Level " ++ toString (calculate_level total) ∧
      calculate_level total = calculate_level (calculate_total_user_xp
        (setUserXp dbA userId guildId (max 0 (currentXp + xpChange)))
        assigns (.ok m'.roles) userId guildId).2
    refine ⟨m, oldMarker, hm, hpre, ?_, ?_⟩
    · rw [hprename', hlvlne]
    · rw [hc]

/-- Witness for C2: user 1 at 90 base XP with the Level 1 marker gains
20 XP, crossing the 100-XP threshold; after the sync completes the
member holds exactly the Level 2 marker, which matches the recomputed
level. -/
theorem level_marker_invariant_witness :
    (([⟨101, "Level 1"⟩] : List Role).filter
      (fun r => pyStartsWith r.name "Level ") = [⟨101, "Level 1"⟩]) ∧
    ∃ m' marker,
      (applySync
        ⟨[⟨101, "Level 1"⟩, ⟨102, "Level 2"⟩, ⟨103, "Level 3"⟩,
          ⟨104, "Level 4"⟩, ⟨105, "Level 5"⟩, ⟨106, "Level 6"⟩,
          ⟨107, "Level 7"⟩, ⟨108, "Level 8"⟩, ⟨109, "Level 9"⟩,
          ⟨110, "Level 10"⟩], some ⟨[⟨101, "Level 1"⟩]⟩⟩
        (fun n => n)
        (update_user_xp ⟨[⟨1, 1, 90, 1⟩], [], [], []⟩ []
          (.ok [⟨101, "Level 1"⟩]) 1 1 20).2.2.2).member = some m' ∧
      m'.roles.filter (fun r => pyStartsWith r.name "Level ") = [marker] ∧
      marker.name = "Level " ++ toString
        (update_user_xp ⟨[⟨1, 1, 90, 1⟩], [], [], []⟩ []
          (.ok [⟨101, "Level 1"⟩]) 1 1 20).2.2.1 ∧
      (update_user_xp ⟨[⟨1, 1, 90, 1⟩], [], [], []⟩ []
          (.ok [⟨101, "Level 1"⟩]) 1 1 20).2.2.1 =
        calculate_level (calculate_total_user_xp
          (update_user_xp ⟨[⟨1, 1, 90, 1⟩], [], [], []⟩ []
            (.ok [⟨101, "Level 1"⟩]) 1 1 20).1
          [] (.ok m'.roles) 1 1).2 := by
  refine ⟨by decide, ?_⟩
  exact level_marker_invariant ⟨[⟨1, 1, 90, 1⟩], [], [], []⟩ []
    ⟨[⟨101, "Level 1"⟩, ⟨102, "Level 2"⟩, ⟨103, "Level 3"⟩,
      ⟨104, "Level 4"⟩, ⟨105, "Level 5"⟩, ⟨106, "Level 6"⟩,
      ⟨107, "Level 7"⟩, ⟨108, "Level 8"⟩, ⟨109, "Level 9"⟩,
      ⟨110, "Level 10"⟩], some ⟨[⟨101, "Level 1"⟩]⟩⟩
    (fun n => n) 1 1 20 ⟨[⟨101, "Level 1"⟩]⟩ ⟨101, "Level 1"⟩
    rfl (by decide) (by decide) (by decide)
    (by
      intro n h1 h2
      rcases (by omega :
          n = 1 ∨ n = 2 ∨ n = 3 ∨ n = 4 ∨ n = 5 ∨ n = 6 ∨ n = 7 ∨ n = 8 ∨
          n = 9 ∨ n = 10) with
          rfl | rfl | rfl | rfl | rfl | rfl | rfl | rfl | rfl | rfl <;> decide)
    (by decide) (by decide)

/-! ## C6: the channel gate -/

/-- `QuestBot.get_whitelisted_channels` (bot.py lines 491-502):
`SELECT channel_id, channel_name FROM whitelisted_channels WHERE
guild_id = ?`. -/
def get_whitelisted_channels (db : Db) (guildId : Nat) : List (Nat × String) :=
  (db.whitelist.filter (fun w => w.guildId = guildId)).map
    (fun w => (w.channelId, w.channelName))

/-- The inbound command context seen by the global check. -/
structure Ctx where
  isDM : Bool
  manageGuild : Bool
  commandName : Option String
  guildId : Nat
  channelId : Nat
deriving DecidableEq, Repr

/-- `is_channel_whitelisted_check` (bot.py lines 551-578): DMs pass,
actors with `manage_guild` pass, the `whitelist` command itself passes,
an empty whitelist passes, otherwise pass iff the channel id is in the
whitelist. -/
def is_channel_whitelisted_check (db : Db) (ctx : Ctx) : Bool :=
  if ctx.isDM then true
  else if ctx.manageGuild then true
  else if ctx.commandName = some "whitelist" then true
  else if get_whitelisted_channels db ctx.guildId = [] then true
  else decide (ctx.channelId ∈
    (get_whitelisted_channels db ctx.guildId).map Prod.fst)

/-- `send_whitelisted_message` (bot.py lines 583-602): DMs always send,
an empty whitelist sends, otherwise send iff the channel id is in the
whitelist (returning whether a message was sent). -/
def send_whitelisted_message (db : Db) (channelGuild : Option Nat)
    (channelId : Nat) : Bool :=
  match channelGuild with
  | none => true
  | some guildId =>
      if get_whitelisted_channels db guildId = [] then true
      else decide (channelId ∈
        (get_whitelisted_channels db guildId).map Prod.fst)

/-- A guild text channel as seen by the notification loop. -/
structure Channel where
  id : Nat
  canSend : Bool
deriving DecidableEq, Repr

/-- The notification send of `on_member_update` (bot.py lines 813-817
and 829-833): the role-gain embed goes to the FIRST text channel the
bot can send in, via a direct `channel.send` — the database (and hence
the whitelist) is not consulted; `db` and `guildId` are accepted only
to exhibit what the handler had available.  Returns the id of the
channel the message is sent to. -/
def on_member_update_notify (db : Db) (guildId : Nat)
    (channels : List Channel) : Option Nat :=
  (channels.find? (fun c => c.canSend)).map (fun c => c.id)

/-- Counterexample to C6 as stated: with whitelist `{100}` for guild 1,
the gate suppresses sends to channel 200, yet the member-update
role-gain notification is sent to channel 200 (the first writable
channel) — so the gate does not govern that outbound send. -/
theorem channel_gate_counterexample :
    get_whitelisted_channels ⟨[], [], [], [⟨1, 100, "allowed"⟩]⟩ 1 =
      [(100, "allowed")] ∧
    send_whitelisted_message ⟨[], [], [], [⟨1, 100, "allowed"⟩]⟩ (some 1) 200 =
      false ∧
    on_member_update_notify ⟨[], [], [], [⟨1, 100, "allowed"⟩]⟩ 1
      [⟨200, true⟩] = some 200 := by
  decide

/-- C6 (amended): the gate passes privileged actors, the whitelist
command itself, every channel under an empty whitelist, and otherwise
exactly the whitelisted channels; it governs inbound command execution
and outbound sends made through `send_whitelisted_message`, while the
member-update role-gain notification is sent to the first writable
channel whenever one exists, regardless of the whitelist. -/
theorem channel_gate_spec :
    (∀ (db : Db) (ctx : Ctx), ctx.isDM = false →
      (is_channel_whitelisted_check db ctx = true ↔
        (ctx.manageGuild = true ∨ ctx.commandName = some "whitelist" ∨
         get_whitelisted_channels db ctx.guildId = [] ∨
         ctx.channelId ∈ (get_whitelisted_channels db ctx.guildId).map
           Prod.fst))) ∧
    (∀ (db : Db) (guildId channelId : Nat),
      (send_whitelisted_message db (some guildId) channelId = true ↔
        (get_whitelisted_channels db guildId = [] ∨
         channelId ∈ (get_whitelisted_channels db guildId).map Prod.fst))) ∧
    (∀ (db : Db) (guildId : Nat) (channels : List Channel),
      ((on_member_update_notify db guildId channels).isSome = true ↔
        ∃ c ∈ channels, c.canSend = true)) := by
  refine ⟨?_, ?_, ?_⟩
  · intro db ctx hdm
    unfold is_channel_whitelisted_check
    rw [if_neg (by simp [hdm])]
    by_cases hmg : ctx.manageGuild = true
    · simp [hmg]
    · rw [if_neg (by simpa using hmg)]
      by_cases hwc : ctx.commandName = some "whitelist"
      · simp [hwc]
      · rw [if_neg hwc]
        by_cases hempty : get_whitelisted_channels db ctx.guildId = []
        · simp [hempty]
        · rw [if_neg hempty]
          simp [hmg, hwc, hempty]
  · intro db guildId channelId
    show (if get_whitelisted_channels db guildId = [] then true
      else decide (channelId ∈
        (get_whitelisted_channels db guildId).map Prod.fst)) = true ↔ _
    by_cases hempty : get_whitelisted_channels db guildId = []
    · simp [hempty]
    · rw [if_neg hempty]
      simp [hempty]
  · intro db guildId channels
    unfold on_member_update_notify
    have hmap : (Option.map (fun (c : Channel) => c.id)
        (channels.find? (fun c => c.canSend))).isSome =
        (channels.find? (fun c => c.canSend)).isSome := by
      cases channels.find? (fun c => c.canSend) <;> rfl
    rw [hmap, List.find?_isSome]

/-- Witness for the amended C6 on concrete states: a non-privileged
command in non-whitelisted channel 200 is blocked, matching the
predicate; the helper send to whitelisted channel 100 goes through;
and the member-update notification fires because a writable channel
exists. -/
theorem channel_gate_spec_witness :
    ((⟨false, false, some "rank", 1, 200⟩ : Ctx).isDM = false) ∧
    (is_channel_whitelisted_check ⟨[], [], [], [⟨1, 100, "allowed"⟩]⟩
        ⟨false, false, some "rank", 1, 200⟩ = true ↔
      ((⟨false, false, some "rank", 1, 200⟩ : Ctx).manageGuild = true ∨
       (⟨false, false, some "rank", 1, 200⟩ : Ctx).commandName =
         some "whitelist" ∨
       get_whitelisted_channels ⟨[], [], [], [⟨1, 100, "allowed"⟩]⟩ 1 = [] ∨
       (200:Nat) ∈ (get_whitelisted_channels
         ⟨[], [], [], [⟨1, 100, "allowed"⟩]⟩ 1).map Prod.fst)) ∧
    (send_whitelisted_message ⟨[], [], [], [⟨1, 100, "allowed"⟩]⟩ (some 1)
        100 = true ↔
      (get_whitelisted_channels ⟨[], [], [], [⟨1, 100, "allowed"⟩]⟩ 1 = [] ∨
       (100:Nat) ∈ (get_whitelisted_channels
         ⟨[], [], [], [⟨1, 100, "allowed"⟩]⟩ 1).map Prod.fst)) ∧
    ((on_member_update_notify ⟨[], [], [], [⟨1, 100, "allowed"⟩]⟩ 1
        [⟨200, true⟩]).isSome = true ↔
      ∃ c ∈ ([⟨200, true⟩] : List Channel), c.canSend = true) :=
  ⟨rfl,
    channel_gate_spec.1 ⟨[], [], [], [⟨1, 100, "allowed"⟩]⟩
      ⟨false, false, some "rank", 1, 200⟩ rfl,
    channel_gate_spec.2.1 ⟨[], [], [], [⟨1, 100, "allowed"⟩]⟩ 1 100,
    channel_gate_spec.2.2 ⟨[], [], [], [⟨1, 100, "allowed"⟩]⟩ 1 [⟨200, true⟩]⟩

end QuestBot
